import Mathlib

/-!
Shallow embedding of `src/aaudio/hello-aaudio/src/main/cpp/audio_main.cpp`.

The file models the two core routines of the sample:

* `TunePlayerForLowLatency` (lines 212-273), embedded as `tune` /
  `tuneLoop`, driven by a `TunerDevice` oracle that supplies the
  responses of the external AAudio stream collaborator;
* `PlayAudioThreadProc`'s render loop and teardown (lines 92-116),
  embedded as `renderSteps` / `renderBurst`, driven by a `RenderEnv`
  oracle for the shared flags and write results.

C `assert` statements are modelled with their assertion-enabled
semantics (the translation unit defines no `NDEBUG`): a failed
assertion aborts execution, which the embeddings expose as a distinct
`aborted` outcome.  Loops are embedded with explicit fuel; an exhausted
fuel returns `none`, so `none` for every fuel means the loop diverges.
Machine `int32_t` values are modelled as `Int`; where a property
depends on the machine width — the termination of the tuning loop,
which rests on the `int32_t` underrun counter being bounded — the
`INT32_MAX` bound on the device's readings enters as an explicit
hypothesis.
-/

namespace AAudio

/-- The `aaudio_stream_state_t` enumeration (the values the tuner
distinguishes: `AAUDIO_STREAM_STATE_STARTED` versus anything else). -/
inductive StreamState where
  | uninitialized
  | opened
  | starting
  | started
  | pausing
  | paused
  | stopping
  | stopped
  | closing
  | closed
  | disconnected
deriving DecidableEq, Repr

/-- Oracle for the external AAudio stream as seen by
`TunePlayerForLowLatency`: the fixed stream properties read before the
loop, and the per-iteration responses of the device.  `setResp k req`
is the result of the `k`-th `AAudioStream_setBufferSizeInFrames`
request inside the loop with requested size `req`; `getResp k req` is
the size re-read right after it; `writeResp k` is the result of the
`k`-th probe write; `xrunResp k` is the `k`-th in-loop
`AAudioStream_getXRunCount` reading; `restoreResp` is the (ignored)
result of the rollback `setBufferSizeInFrames(stream, orgSize)` call. -/
structure TunerDevice where
  state : StreamState
  framesPerBurst : Int
  orgSize : Int
  bufCap : Int
  initXRun : Int
  setResp : Nat → Int → Int
  getResp : Nat → Int → Int
  writeResp : Nat → Int
  xrunResp : Nat → Int
  restoreResp : Int

/-- Device-mutating calls issued by the tuner, in order:
`set req res` is a `setBufferSizeInFrames` request, `write frames res`
is a blocking probe write of `frames` frames. -/
inductive Ev where
  | set (req res : Int)
  | write (frames res : Int)
deriving DecidableEq, Repr

/-- How the tuning `while` loop exits: `clean` (a `break` with
`trainingError == false`, or the guard failing), `err` (a `break`
after `trainingError = true`), `aborted` (the
`assert(result >= 0)` on the probe-write path fired). -/
inductive LoopExit where
  | clean
  | err
  | aborted
deriving DecidableEq, Repr

/-- Overall result of `TunePlayerForLowLatency`: `success` = returns
`true`, `failure` = returns `false`, `aborted` = a failed assertion
terminated the process. -/
inductive TuneOutcome where
  | success
  | failure
  | aborted
deriving DecidableEq, Repr

/-- The tuning `while (bufSize <= bufCap)` loop of
`TunePlayerForLowLatency` (audio_main.cpp lines 232-263), with fuel.
State: `k` = iteration index, `bufSize`, `prevBufSize`, `prevXRun`
exactly as in the source.  Returns the loop exit kind and the trace of
device-mutating calls; `none` means the fuel ran out. -/
def tuneLoop (dev : TunerDevice) :
    Nat → Nat → Int → Int → Int → Option (LoopExit × List Ev)
  | 0, _, _, _, _ => none
  | fuel + 1, k, bufSize, prevBufSize, prevXRun =>
    if bufSize ≤ dev.bufCap then
      let r := dev.setResp k bufSize
      if r ≤ 0 then
        some (.err, [.set bufSize r])
      else
        let adopted := dev.getResp k bufSize
        if adopted = prevBufSize then
          some (.clean, [.set bufSize r])
        else
          let w := dev.writeResp k
          if w < 0 then
            some (.aborted, [.set bufSize r, .write dev.bufCap w])
          else
            let cur := dev.xrunResp k
            if cur ≤ prevXRun then
              some (.clean, [.set bufSize r, .write dev.bufCap w])
            else
              (tuneLoop dev fuel (k + 1) (adopted + dev.framesPerBurst)
                  adopted cur).map
                (fun x => (x.1, .set bufSize r :: .write dev.bufCap w :: x.2))
    else
      some (.clean, [])

/-- `TunePlayerForLowLatency` (audio_main.cpp lines 212-273): checks the
stream state, runs the tuning loop starting from one burst, and on a
tuning error restores the entry buffer size before reporting failure. -/
def tune (dev : TunerDevice) (fuel : Nat) : Option (TuneOutcome × List Ev) :=
  if dev.state ≠ .started then
    some (.failure, [])
  else
    (tuneLoop dev fuel 0 dev.framesPerBurst 0 dev.initXRun).map
      (fun x =>
        match x.1 with
        | .clean => (.success, x.2)
        | .err => (.failure, x.2 ++ [.set dev.orgSize dev.restoreResp])
        | .aborted => (.aborted, x.2))

/-- The engine structure `AAudioEngine` (audio_main.cpp lines 27-37).
`playStream` is `true` when the `AAudioStream*` handle is non-null. -/
structure Engine where
  sampleRate : Nat
  sampleChannels : Nat
  bitsPerSample : Nat
  sampleFormat : Nat
  playStream : Bool
  requestStop : Bool
  playAudio : Bool
deriving DecidableEq, Repr

/-- The zeroed engine, as produced by `memset(&engine, 0, sizeof(engine))`. -/
def engineZero : Engine :=
  { sampleRate := 0, sampleChannels := 0, bitsPerSample := 0,
    sampleFormat := 0, playStream := false, requestStop := false,
    playAudio := false }

/-- Modelled from the spec: `SineGenerator` (its header `SineGenerator.h`
is not under `src/`).  `sample n` is the quantized integer sample the
generator produces for cumulative frame `n`; `pos` is the running phase
accumulator measured in frames, which advances monotonically on every
render call and is never reset (spec section 4.1 / section 3
GeneratorState). -/
structure SineGenerator where
  sample : Nat → Int
  pos : Nat

/-- Writes `n` consecutive samples of the stream `sample`, starting at
cumulative frame `pos`, into `buf` at element positions
`offset + i * stride` (`i = 0, …, n-1`).  This is the buffer effect of
the spec-modelled `SineGenerator::render(buffer + offset, stride, n)`:
render writes `frameCount` samples advancing by `frameStride` elements
between samples (spec section 4.1). -/
def setSamples (sample : Nat → Int) (pos offset stride : Nat) :
    Nat → List Int → List Int
  | 0, buf => buf
  | n + 1, buf =>
    (setSamples sample pos offset stride n buf).set (offset + n * stride)
      (sample (pos + n))

/-- Oracle for the render loop of `PlayAudioThreadProc`
(audio_main.cpp lines 92-106): `requestStopAt n` / `playAt n` are the
values of the shared flags `eng->requestStop_` / `eng->playAudio_` as
read by iteration `n` (the controller writes them concurrently);
`writeResp n` is the result of the `n`-th `AAudioStream_write`;
`framesPerBurst` / `samplesPerFrame` are the stream properties read
before the loop; `rightSample` / `leftSample` are the quantized sample
streams of the two sine generators. -/
structure RenderEnv where
  requestStopAt : Nat → Bool
  playAt : Nat → Bool
  writeResp : Nat → Int
  framesPerBurst : Nat
  samplesPerFrame : Nat
  rightSample : Nat → Int
  leftSample : Nat → Int

/-- One iteration's buffer production (audio_main.cpp lines 93-100):
if the play flag is set, render the right/mono channel at stride
`samplesPerFrame` from offset 0, and additionally the left channel from
offset 1 exactly when `samplesPerFrame == 2`; otherwise `memset` the
whole burst buffer to zero. -/
def renderBurst (env : RenderEnv) (play : Bool) (posR posL : Nat)
    (buf : List Int) : List Int :=
  if play then
    let buf1 := setSamples env.rightSample posR 0 env.samplesPerFrame
      env.framesPerBurst buf
    if env.samplesPerFrame = 2 then
      setSamples env.leftSample posL 1 env.samplesPerFrame
        env.framesPerBurst buf1
    else buf1
  else
    List.replicate (env.framesPerBurst * env.samplesPerFrame) 0

/-- Observable steps of the render loop: a blocking write of one burst
(with the buffer contents and the device's result), then the teardown
actions `delete [] buf`, `AAudioStream_requestStop`,
`AAudioStream_close` in order. -/
inductive REv where
  | write (buf : List Int) (res : Int)
  | freeBuf
  | devStop
  | devClose
deriving DecidableEq, Repr

/-- Event kinds, forgetting buffer contents and results. -/
inductive RKind where
  | write
  | freeBuf
  | devStop
  | devClose
deriving DecidableEq, Repr

/-- The kind of a render-loop event. -/
def evKind : REv → RKind
  | .write _ _ => .write
  | .freeBuf => .freeBuf
  | .devStop => .devStop
  | .devClose => .devClose

/-- How the render loop ends: `done` = the stop flag was observed and
teardown completed; `aborted` = `assert(result > 0)` fired on a
non-positive write result. -/
inductive ROutcome where
  | done
  | aborted
deriving DecidableEq, Repr

/-- The `while (!eng->requestStop_)` render loop and teardown of
`PlayAudioThreadProc` (audio_main.cpp lines 92-116), with fuel.
State: iteration index `n`, generator phase positions `posR`, `posL`,
and the reused heap buffer `buf` (initially uninitialized in the
source, hence an arbitrary parameter).  On observing the stop flag the
loop frees the buffer, sets `eng->requestStop_ = false`, requests the
device stop, closes it, and nulls `eng->playStream_`.  Returns the
outcome, the event trace, and the final engine; `none` means the fuel
ran out. -/
def renderSteps (env : RenderEnv) (eng : Engine) :
    Nat → Nat → Nat → Nat → List Int → Option (ROutcome × List REv × Engine)
  | 0, _, _, _, _ => none
  | fuel + 1, n, posR, posL, buf =>
    if env.requestStopAt n then
      some (.done, [.freeBuf, .devStop, .devClose],
        { eng with requestStop := false, playStream := false })
    else
      let play := env.playAt n
      let buf2 := renderBurst env play posR posL buf
      let r := env.writeResp n
      if r ≤ 0 then
        some (.aborted, [.write buf2 r], eng)
      else
        let posR2 := if play then posR + env.framesPerBurst else posR
        let posL2 :=
          if play ∧ env.samplesPerFrame = 2 then posL + env.framesPerBurst
          else posL
        (renderSteps env eng fuel (n + 1) posR2 posL2 buf2).map
          (fun x => (x.1, .write buf2 r :: x.2.1, x.2.2))

/-- Bytes allocated for the tuner's probe buffer
(audio_main.cpp line 225): `bufCap * engine.bitsPerSample_ / 8`. -/
def tuneAllocBytes (bufCap bitsPerSample : Nat) : Nat :=
  bufCap * bitsPerSample / 8

/-- Bytes consumed by the capacity-sized probe write
(audio_main.cpp line 249): `bufCap` frames of `samplesPerFrame`
samples of `bitsPerSample / 8` bytes each. -/
def probeWriteBytes (bufCap samplesPerFrame bitsPerSample : Nat) : Nat :=
  bufCap * samplesPerFrame * bitsPerSample / 8

/-- Shape view of a completed render run: the outcome, the kinds of
the traced events (forgetting buffer contents and write results), and
the final engine. -/
def traceView (x : ROutcome × List REv × Engine) :
    ROutcome × List RKind × Engine :=
  (x.1, x.2.1.map evKind, x.2.2)

/-! Concrete device and environment instances used as witnesses and
counterexamples. -/

/-- A well-behaved device: accepts every set request (result 1), adopts
exactly the requested size, probe writes succeed with result 0, and the
underrun counter rises once after the first probe and then stays put. -/
def devEcho : TunerDevice :=
  { state := .started, framesPerBurst := 2, orgSize := 6, bufCap := 8,
    initXRun := 0, setResp := fun _ _ => 1, getResp := fun _ req => req,
    writeResp := fun _ => 0, xrunResp := fun _ => 1, restoreResp := 1 }

/-- A device that reports an adopted size equal to the initial
`prevBufSize` (zero) on the very first re-read: the tuner converges at
once. -/
def devConv : TunerDevice :=
  { devEcho with getResp := fun _ _ => 0 }

/-- A device whose first probe write fails with `-1`. -/
def devWriteNeg : TunerDevice :=
  { devEcho with writeResp := fun _ => -1 }

/-- A device whose stream is not in the `STARTED` state. -/
def devIdle : TunerDevice :=
  { devEcho with state := .paused }

/-- A stereo render environment whose stop flag becomes visible from
iteration 2 on and whose play flag is set only at iteration 1. -/
def envPlay : RenderEnv :=
  { requestStopAt := fun n => decide (2 ≤ n), playAt := fun n => n = 1,
    writeResp := fun _ => 3, framesPerBurst := 2, samplesPerFrame := 2,
    rightSample := fun i => (i : Int) + 10,
    leftSample := fun i => (i : Int) + 20 }

/-- A mono render environment whose stop flag becomes visible from
iteration 1 on; all writes succeed. -/
def envStop : RenderEnv :=
  { requestStopAt := fun n => decide (1 ≤ n), playAt := fun _ => false,
    writeResp := fun _ => 2, framesPerBurst := 1, samplesPerFrame := 1,
    rightSample := fun _ => 0, leftSample := fun _ => 0 }

/-- A render environment that never sees a stop request and whose very
first write returns 0 frames. -/
def envFail : RenderEnv :=
  { envStop with requestStopAt := fun _ => false, writeResp := fun _ => 0 }

/-- A render environment whose stop flag is already visible at the
first guard read. -/
def envStopNow : RenderEnv :=
  { envStop with requestStopAt := fun _ => true }

/-- An engine as populated by `createEngine` with playback active and a
stop request pending: every field differs from the zeroed state except
the flags' types allow. -/
def engPre : Engine :=
  { sampleRate := 48000, sampleChannels := 2, bitsPerSample := 16,
    sampleFormat := 1, playStream := true, requestStop := true,
    playAudio := true }

/-- `engPre` after the render loop's teardown: only the stop flag and
the stream handle are cleared. -/
def engPost : Engine :=
  { engPre with requestStop := false, playStream := false }

/-! Helper lemmas about single iterations of the tuning loop. -/

/-- If the guard holds, the set request is accepted and the re-read
size equals the previous reading, the loop stops cleanly with only the
set call in its trace. -/
lemma tuneLoop_converged (dev : TunerDevice) (fuel k : Nat) (b p px : Int)
    (hb : b ≤ dev.bufCap) (hset : 1 ≤ dev.setResp k b)
    (hget : dev.getResp k b = p) :
    tuneLoop dev (fuel + 1) k b p px =
      some (.clean, [.set b (dev.setResp k b)]) := by
  have hns : ¬ dev.setResp k b ≤ 0 := by omega
  simp [tuneLoop, hb, hns, hget]

/-- C1: in the tuner's search loop, the size re-read after the set
request is compared with the previous iteration's adopted size and, on
equality, the tuner stops and reports success; in particular, when the
device reports a converged size on the very first iteration (matching
the initial `prevBufSize` of 0), `tune` returns success with a single
set call and no probe write in its trace. -/
theorem C1_converged_stop (dev : TunerDevice) :
    (∀ fuel k b p px, b ≤ dev.bufCap → 1 ≤ dev.setResp k b →
      dev.getResp k b = p →
      tuneLoop dev (fuel + 1) k b p px =
        some (.clean, [.set b (dev.setResp k b)])) ∧
    (dev.state = .started → dev.framesPerBurst ≤ dev.bufCap →
      1 ≤ dev.setResp 0 dev.framesPerBurst →
      dev.getResp 0 dev.framesPerBurst = 0 →
      ∀ fuel, tune dev (fuel + 1) =
        some (.success,
          [.set dev.framesPerBurst (dev.setResp 0 dev.framesPerBurst)])) := by
  constructor
  · intro fuel k b p px hb hset hget
    exact tuneLoop_converged dev fuel k b p px hb hset hget
  · intro hst hb hset hget fuel
    have h := tuneLoop_converged dev fuel 0 dev.framesPerBurst 0 dev.initXRun
      hb hset hget
    simp [tune, hst, h]

/-- C1 witness: a device that accepts the first set request and then
reports the converged size 0 makes the tuner succeed with one set call
and no probe write. -/
theorem C1_witness :
    tune devConv 4 = some (.success, [.set 2 1]) := by
  have h := (C1_converged_stop devConv).2 rfl (by decide) (by decide)
    (by decide) 3
  simpa using h

/-- C2 (code bug evidence, failing input evaluated): on a device whose
probe write returns `-1`, `TunePlayerForLowLatency` reaches
`assert(result >= 0)` inside the `result < 0` branch and aborts: the
trace ends at the failed probe write, with no rollback
`setBufferSizeInFrames(stream, orgSize)` call (no `.set 6 _` event) and
no `false` return, contradicting the function's own comments. -/
theorem C2_assert_abort :
    tune devWriteNeg 4 = some (.aborted, [.set 2 1, .write 8 (-1)]) := by
  rfl

/-- C3: in every loop iteration that reaches the underrun check (set
accepted, size not converged, probe write non-negative), the tuner
reads the underrun counter; if it has not increased it stops cleanly,
otherwise the next iteration runs with the candidate set to the adopted
size plus exactly one burst. -/
theorem C3_underrun_step (dev : TunerDevice) (fuel k : Nat) (b p px : Int)
    (hb : b ≤ dev.bufCap) (hset : 1 ≤ dev.setResp k b)
    (hne : dev.getResp k b ≠ p) (hw : 0 ≤ dev.writeResp k) :
    (dev.xrunResp k ≤ px →
      tuneLoop dev (fuel + 1) k b p px =
        some (.clean,
          [.set b (dev.setResp k b), .write dev.bufCap (dev.writeResp k)])) ∧
    (px < dev.xrunResp k →
      tuneLoop dev (fuel + 1) k b p px =
        (tuneLoop dev fuel (k + 1)
            (dev.getResp k b + dev.framesPerBurst) (dev.getResp k b)
            (dev.xrunResp k)).map
          (fun x => (x.1, .set b (dev.setResp k b) ::
            .write dev.bufCap (dev.writeResp k) :: x.2))) := by
  have hns : ¬ dev.setResp k b ≤ 0 := by omega
  have hnw : ¬ dev.writeResp k < 0 := by omega
  constructor
  · intro hx
    simp [tuneLoop, hb, hns, hne, hnw, hx]
  · intro hx
    have hnx : ¬ dev.xrunResp k ≤ px := by omega
    simp [tuneLoop, hb, hns, hne, hnw, hnx]

/-- C3 witness: on `devEcho` the very first probe write underruns (the
counter rises from 0 to 1), so the candidate grows from the adopted 2
by one burst to 4; the second iteration's counter reading has not
increased, so the loop stops cleanly. -/
theorem C3_witness :
    tuneLoop devEcho 2 0 2 0 0 =
      some (.clean, [.set 2 1, .write 8 0, .set 4 1, .write 8 0]) := by
  have h2 := (C3_underrun_step devEcho 1 0 2 0 0 (by decide) (by decide)
    (by decide) (by decide)).2 (by decide)
  have h1 := (C3_underrun_step devEcho 0 1 4 2 1 (by decide) (by decide)
    (by decide) (by decide)).1 (by decide)
  rw [h2]
  rw [show devEcho.getResp 0 2 + devEcho.framesPerBurst = 4 from rfl,
    show devEcho.getResp 0 2 = 2 from rfl,
    show devEcho.xrunResp 0 = 1 from rfl]
  rw [h1]
  rfl

/-- C8: when the stream is not in the `STARTED` state, tuning fails
immediately for every fuel and issues no set request and no write (its
event trace is empty). -/
theorem C8_not_started (dev : TunerDevice) (h : dev.state ≠ .started) :
    ∀ fuel, tune dev fuel = some (.failure, []) := by
  intro fuel
  simp [tune, h]

/-- C8 witness: tuning a paused stream fails with an empty trace. -/
theorem C8_witness : tune devIdle 7 = some (.failure, []) :=
  C8_not_started devIdle (by decide) 7

/-- Whatever the device's set, get and write responses are, every
continuing iteration of the tuning loop strictly increases `prevXRun`
(line 261 runs only after `curXRun <= prevXRun` failed), and every
`getXRunCount` reading is an `int32_t` value bounded by `INT32_MAX`;
so once the fuel exceeds the headroom `INT32_MAX - prevXRun` the loop
completes — all other branches exit immediately. -/
lemma tuneLoop_isSome_of_int32_xrun (dev : TunerDevice)
    (hx : ∀ k, dev.xrunResp k ≤ 2 ^ 31 - 1) :
    ∀ fuel k (b p px : Int), (2 ^ 31 - 1 - px).toNat < fuel →
      (tuneLoop dev fuel k b p px).isSome := by
  intro fuel
  induction fuel with
  | zero => intro k b p px h; exact absurd h (Nat.not_lt_zero _)
  | succ fuel ih =>
    intro k b p px h
    by_cases hb : b ≤ dev.bufCap
    · simp only [tuneLoop, if_pos hb]
      by_cases hs : dev.setResp k b ≤ 0
      · simp [hs]
      · simp only [if_neg hs]
        by_cases hc : dev.getResp k b = p
        · simp [hc]
        · simp only [if_neg hc]
          by_cases hw : dev.writeResp k < 0
          · simp [hw]
          · simp only [if_neg hw]
            by_cases hxp : dev.xrunResp k ≤ px
            · simp [hxp]
            · simp only [if_neg hxp, Option.isSome_map']
              apply ih
              have hk := hx k
              omega
    · simp [tuneLoop, hb]

/-- C4: for every behaviour of the external device collaborator
(arbitrary responses to `setBufferSizeInFrames`,
`getBufferSizeInFrames` and `write`; underrun readings bounded by
`INT32_MAX`, as the source's `int32_t` return type guarantees), the
tuning loop terminates after finitely many iterations: some finite
fuel completes the run of `tune`. -/
theorem C4_loop_terminates (dev : TunerDevice)
    (hx : ∀ k, dev.xrunResp k ≤ 2 ^ 31 - 1) :
    ∃ fuel, (tune dev fuel).isSome := by
  by_cases hst : dev.state = .started
  · refine ⟨(2 ^ 31 - 1 - dev.initXRun).toNat + 1, ?_⟩
    have h := tuneLoop_isSome_of_int32_xrun dev hx
      ((2 ^ 31 - 1 - dev.initXRun).toNat + 1) 0
      dev.framesPerBurst 0 dev.initXRun (by omega)
    simpa [tune, hst, Option.isSome_map'] using h
  · exact ⟨1, by simp [tune, hst]⟩

/-- C4 witness: `devEcho`'s underrun readings are the constant 1, well
within `int32_t`, so its tuning run terminates. -/
theorem C4_witness : ∃ fuel, (tune devEcho fuel).isSome :=
  C4_loop_terminates devEcho
    (fun _ => show (1 : Int) ≤ 2 ^ 31 - 1 by decide)

/-- C10: for any stream with more than one sample per frame, the
tuner's probe buffer allocation (`bufCap * bitsPerSample / 8` bytes,
line 225) is strictly smaller than the bytes a capacity-sized write
consumes (`bufCap * samplesPerFrame * bitsPerSample / 8`, line 249):
the probe write reads past the end of the allocation. -/
theorem C10_alloc_undersized (bufCap spf bits : Nat) (hcap : 1 ≤ bufCap)
    (hspf : 2 ≤ spf) (hbits : 8 ≤ bits) (hdvd : 8 ∣ bits) :
    tuneAllocBytes bufCap bits < probeWriteBytes bufCap spf bits := by
  obtain ⟨c, rfl⟩ := hdvd
  have hc : 1 ≤ c := by omega
  have h1 : tuneAllocBytes bufCap (8 * c) = bufCap * c := by
    unfold tuneAllocBytes
    rw [show bufCap * (8 * c) = 8 * (bufCap * c) from by ring]
    exact Nat.mul_div_cancel_left _ (by omega)
  have h2 : probeWriteBytes bufCap spf (8 * c) = bufCap * spf * c := by
    unfold probeWriteBytes
    rw [show bufCap * spf * (8 * c) = 8 * (bufCap * spf * c) from by ring]
    exact Nat.mul_div_cancel_left _ (by omega)
  rw [h1, h2]
  nlinarith

/-- C10 witness: at the sample's own configuration (16-bit PCM, stereo,
capacity 128 frames) the allocation is 256 bytes while the probe write
consumes 512. -/
theorem C10_witness : tuneAllocBytes 128 16 < probeWriteBytes 128 2 16 :=
  C10_alloc_undersized 128 2 16 (by decide) (by decide) (by decide)
    (by decide)

/-! Helper lemmas about `setSamples`. -/

/-- `setSamples` preserves the buffer length. -/
lemma length_setSamples (sample : Nat → Int) (pos offset stride : Nat) :
    ∀ n buf, (setSamples sample pos offset stride n buf).length =
      buf.length := by
  intro n
  induction n with
  | zero => intro buf; rfl
  | succ n ih => intro buf; simp [setSamples, List.length_set, ih]

/-- Positions not of the form `offset + i * stride` are untouched by
`setSamples`. -/
lemma getElem?_setSamples_miss (sample : Nat → Int)
    (pos offset stride : Nat) :
    ∀ n buf m, (∀ i < n, offset + i * stride ≠ m) →
      (setSamples sample pos offset stride n buf)[m]? = buf[m]? := by
  intro n
  induction n with
  | zero => intro buf m _; rfl
  | succ n ih =>
    intro buf m h
    have hne : offset + n * stride ≠ m := h n (Nat.lt_succ_self n)
    calc (setSamples sample pos offset stride (n + 1) buf)[m]?
        = (setSamples sample pos offset stride n buf)[m]? := by
          simp only [setSamples]
          exact List.getElem?_set_ne hne
      _ = buf[m]? := ih buf m (fun i hi => h i (Nat.lt_succ_of_lt hi))

/-- Positions `offset + j * stride` with `j < n` hold the `j`-th
rendered sample, provided the stride is nonzero and the position is in
range. -/
lemma getElem?_setSamples_hit (sample : Nat → Int)
    (pos offset stride : Nat) (hstride : 1 ≤ stride) :
    ∀ n buf j, j < n → offset + j * stride < buf.length →
      (setSamples sample pos offset stride n buf)[offset + j * stride]? =
        some (sample (pos + j)) := by
  intro n
  induction n with
  | zero => intro buf j hj; exact absurd hj (Nat.not_lt_zero j)
  | succ n ih =>
    intro buf j hj hlen
    by_cases hje : j = n
    · subst hje
      simp only [setSamples]
      apply List.getElem?_set_eq_of_lt
      rw [length_setSamples]
      exact hlen
    · have hlt : j < n := by omega
      have hne : offset + n * stride ≠ offset + j * stride := by
        have : j * stride < n * stride :=
          Nat.mul_lt_mul_of_lt_of_le hlt (le_refl _) (by omega)
        omega
      calc (setSamples sample pos offset stride (n + 1)
              buf)[offset + j * stride]?
          = (setSamples sample pos offset stride n
              buf)[offset + j * stride]? := by
            simp only [setSamples]
            exact List.getElem?_set_ne hne
        _ = some (sample (pos + j)) := ih buf j hlt hlen

/-- C7: the buffer written by one render-loop iteration is exactly
zero-filled of size `framesPerBurst * samplesPerFrame` while the play
flag is false; while it is true, the right/mono channel's samples sit
at stride `samplesPerFrame` (offset 0), the left channel's samples sit
at offset 1 exactly when the stream is stereo (`samplesPerFrame = 2`),
and for a non-stereo stream only the right generator writes. -/
theorem C7_buffer_contents (env : RenderEnv) (posR posL : Nat)
    (buf : List Int)
    (hlen : buf.length = env.framesPerBurst * env.samplesPerFrame) :
    (renderBurst env false posR posL buf =
      List.replicate (env.framesPerBurst * env.samplesPerFrame) 0) ∧
    (1 ≤ env.samplesPerFrame → ∀ j < env.framesPerBurst,
      (renderBurst env true posR posL buf)[j * env.samplesPerFrame]? =
        some (env.rightSample (posR + j))) ∧
    (env.samplesPerFrame = 2 → ∀ j < env.framesPerBurst,
      (renderBurst env true posR posL buf)[2 * j + 1]? =
        some (env.leftSample (posL + j))) ∧
    (env.samplesPerFrame ≠ 2 →
      renderBurst env true posR posL buf =
        setSamples env.rightSample posR 0 env.samplesPerFrame
          env.framesPerBurst buf) := by
  refine ⟨rfl, ?_, ?_, ?_⟩
  · intro hspf j hj
    have hrange : 0 + j * env.samplesPerFrame < buf.length := by
      rw [hlen]
      have := Nat.mul_lt_mul_of_lt_of_le hj (le_refl env.samplesPerFrame)
        (by omega)
      omega
    have hhit := getElem?_setSamples_hit env.rightSample posR 0
      env.samplesPerFrame hspf env.framesPerBurst buf j hj hrange
    by_cases h2 : env.samplesPerFrame = 2
    · have hmiss := getElem?_setSamples_miss env.leftSample posL 1
        env.samplesPerFrame env.framesPerBurst
        (setSamples env.rightSample posR 0 env.samplesPerFrame
          env.framesPerBurst buf) (j * env.samplesPerFrame)
        (by intro i _; rw [h2]; omega)
      simp only [renderBurst, if_true, if_pos h2]
      rw [show j * env.samplesPerFrame = 0 + j * env.samplesPerFrame
        from by omega] at hmiss ⊢
      rw [hmiss]
      exact hhit
    · simp only [renderBurst, if_true, if_neg h2]
      rw [show j * env.samplesPerFrame = 0 + j * env.samplesPerFrame
        from by omega]
      exact hhit
  · intro h2 j hj
    have hlen1 : (setSamples env.rightSample posR 0 env.samplesPerFrame
        env.framesPerBurst buf).length = buf.length :=
      length_setSamples _ _ _ _ _ _
    have hmul : j * env.samplesPerFrame + env.samplesPerFrame ≤
        env.framesPerBurst * env.samplesPerFrame := by
      have h := Nat.mul_le_mul_right env.samplesPerFrame
        (Nat.succ_le_of_lt hj)
      rw [Nat.succ_mul] at h
      omega
    have hrange : 1 + j * env.samplesPerFrame <
        (setSamples env.rightSample posR 0 env.samplesPerFrame
          env.framesPerBurst buf).length := by
      rw [hlen1, hlen]
      omega
    have hhit := getElem?_setSamples_hit env.leftSample posL 1
      env.samplesPerFrame (by omega) env.framesPerBurst
      (setSamples env.rightSample posR 0 env.samplesPerFrame
        env.framesPerBurst buf) j hj hrange
    simp only [renderBurst, if_true, if_pos h2]
    rw [show 2 * j + 1 = 1 + j * env.samplesPerFrame from by rw [h2]; omega]
    exact hhit
  · intro h2
    simp [renderBurst, h2]

/-- C7 witness: in the stereo environment `envPlay` with burst 2, the
burst rendered with the play flag set holds the left generator's
second sample (value 21) at interleaved position 3, and the silent
burst is all zeros. -/
theorem C7_witness :
    (renderBurst envPlay true 0 0 (List.replicate 4 7))[3]? = some 21 ∧
    renderBurst envPlay false 0 0 (List.replicate 4 7) =
      [0, 0, 0, 0] := by
  have h := C7_buffer_contents envPlay 0 0 (List.replicate 4 7) rfl
  constructor
  · have h3 := h.2.2.1 rfl 1 (by decide)
    simpa using h3
  · have h0 := h.1
    simpa using h0

/-! Helper lemmas about runs of the render loop. -/

/-- If the stop flag stays false through iteration `n0 + n`, the first
`n` writes succeed and write `n0 + n` returns a non-positive result,
then the run (from iteration `n0`, with any sufficient fuel) aborts
with exactly `n + 1` write events and an unchanged engine. -/
lemma renderSteps_abort_general (env : RenderEnv) (eng : Engine) :
    ∀ n n0 fuel (posR posL : Nat) (buf : List Int),
      (∀ m ≤ n, env.requestStopAt (n0 + m) = false) →
      (∀ m < n, 1 ≤ env.writeResp (n0 + m)) →
      env.writeResp (n0 + n) ≤ 0 → n < fuel →
      (renderSteps env eng fuel n0 posR posL buf).map traceView =
        some (.aborted, List.replicate (n + 1) .write, eng) := by
  intro n
  induction n with
  | zero =>
    intro n0 fuel posR posL buf hs hw hf hfuel
    match fuel, hfuel with
    | fuel + 1, _ =>
      have h0 : env.requestStopAt n0 = false := by
        have h := hs 0 (le_refl 0)
        simpa using h
      have hf0 : env.writeResp n0 ≤ 0 := by simpa using hf
      simp [renderSteps, h0, hf0, traceView, evKind]
  | succ n ih =>
    intro n0 fuel posR posL buf hs hw hf hfuel
    match fuel, hfuel with
    | fuel + 1, hfuel =>
      have h0 : env.requestStopAt n0 = false := by
        have h := hs 0 (Nat.zero_le (n + 1))
        simpa using h
      have hw0 : 1 ≤ env.writeResp n0 := by
        have h := hw 0 (Nat.succ_pos n)
        simpa using h
      have hrec := ih (n0 + 1) fuel
        (if env.playAt n0 then posR + env.framesPerBurst else posR)
        (if env.playAt n0 ∧ env.samplesPerFrame = 2 then
          posL + env.framesPerBurst else posL)
        (renderBurst env (env.playAt n0) posR posL buf)
        (fun m hm => by
          have h := hs (m + 1) (Nat.succ_le_succ hm)
          rwa [show n0 + (m + 1) = n0 + 1 + m from by omega] at h)
        (fun m hm => by
          have h := hw (m + 1) (Nat.succ_lt_succ hm)
          rwa [show n0 + (m + 1) = n0 + 1 + m from by omega] at h)
        (by rwa [show n0 + 1 + n = n0 + (n + 1) from by omega])
        (by omega)
      simp only [renderSteps]
      rw [if_neg (by simp [h0])]
      rw [if_neg (by omega : ¬ env.writeResp n0 ≤ 0)]
      rw [Option.map_map]
      rw [show traceView ∘
          (fun x : ROutcome × List REv × Engine =>
            (x.1, REv.write (renderBurst env (env.playAt n0) posR posL buf)
              (env.writeResp n0) :: x.2.1, x.2.2)) =
          (fun y : ROutcome × List RKind × Engine =>
            (y.1, RKind.write :: y.2.1, y.2.2)) ∘ traceView
        from funext fun x => rfl]
      rw [← Option.map_map, hrec]
      simp [List.replicate_succ]

/-- If all writes succeed and the stop flag is first observed at
iteration `n0 + n`, the run (from iteration `n0`) completes: `n` write
events, then the teardown events in order, and an engine whose stop
flag and stream handle are cleared. -/
lemma renderSteps_stop_general (env : RenderEnv) (eng : Engine) :
    ∀ n n0 fuel (posR posL : Nat) (buf : List Int),
      env.requestStopAt (n0 + n) = true →
      (∀ m < n, env.requestStopAt (n0 + m) = false) →
      (∀ m, 1 ≤ env.writeResp m) → n < fuel →
      (renderSteps env eng fuel n0 posR posL buf).map traceView =
        some (.done,
          List.replicate n .write ++ [.freeBuf, .devStop, .devClose],
          { eng with requestStop := false, playStream := false }) := by
  intro n
  induction n with
  | zero =>
    intro n0 fuel posR posL buf hstop _ _ hfuel
    match fuel, hfuel with
    | fuel + 1, _ =>
      have h0 : env.requestStopAt n0 = true := by simpa using hstop
      simp [renderSteps, h0, traceView, evKind]
  | succ n ih =>
    intro n0 fuel posR posL buf hstop hfirst hw hfuel
    match fuel, hfuel with
    | fuel + 1, hfuel =>
      have h0 : env.requestStopAt n0 = false := by
        have h := hfirst 0 (Nat.succ_pos n)
        simpa using h
      have hw0 : 1 ≤ env.writeResp n0 := hw n0
      have hrec := ih (n0 + 1) fuel
        (if env.playAt n0 then posR + env.framesPerBurst else posR)
        (if env.playAt n0 ∧ env.samplesPerFrame = 2 then
          posL + env.framesPerBurst else posL)
        (renderBurst env (env.playAt n0) posR posL buf)
        (by rwa [show n0 + 1 + n = n0 + (n + 1) from by omega])
        (fun m hm => by
          have h := hfirst (m + 1) (Nat.succ_lt_succ hm)
          rwa [show n0 + (m + 1) = n0 + 1 + m from by omega] at h)
        hw
        (by omega)
      simp only [renderSteps]
      rw [if_neg (by simp [h0])]
      rw [if_neg (by omega : ¬ env.writeResp n0 ≤ 0)]
      rw [Option.map_map]
      rw [show traceView ∘
          (fun x : ROutcome × List REv × Engine =>
            (x.1, REv.write (renderBurst env (env.playAt n0) posR posL buf)
              (env.writeResp n0) :: x.2.1, x.2.2)) =
          (fun y : ROutcome × List RKind × Engine =>
            (y.1, RKind.write :: y.2.1, y.2.2)) ∘ traceView
        from funext fun x => rfl]
      rw [← Option.map_map, hrec]
      simp [List.replicate_succ]

/-- C5: if the loop reaches iteration `n` (no stop request visible up
to then, all earlier writes positive) and the write at iteration `n`
returns a non-positive result, then for every sufficient fuel the run
ends `aborted` with exactly `n + 1` write events — no further
render/write iteration ever occurs — and without any teardown
(the engine is returned unchanged). -/
theorem C5_write_abort (env : RenderEnv) (eng : Engine) (n : Nat)
    (buf : List Int)
    (hs : ∀ m ≤ n, env.requestStopAt m = false)
    (hw : ∀ m < n, 1 ≤ env.writeResp m)
    (hf : env.writeResp n ≤ 0) :
    ∀ fuel, n < fuel →
      (renderSteps env eng fuel 0 0 0 buf).map traceView =
        some (.aborted, List.replicate (n + 1) .write, eng) := by
  intro fuel hfuel
  exact renderSteps_abort_general env eng n 0 fuel 0 0 buf
    (fun m hm => by simpa using hs m hm)
    (fun m hm => by simpa using hw m hm)
    (by simpa using hf) hfuel

/-- C5 witness: in `envFail` the very first write returns 0, so the
run aborts after exactly one write event whatever the fuel. -/
theorem C5_witness :
    (renderSteps envFail engPre 3 0 0 0 []).map traceView =
      some (.aborted, [.write], engPre) := by
  have h := C5_write_abort envFail engPre 0 []
    (fun m _ => rfl)
    (fun m hm => absurd hm (Nat.not_lt_zero m))
    (by decide) 3 (by decide)
  simpa using h

/-- C6: once the stop flag is observed — it is first visible at
iteration `n` and every write before that succeeded — the loop
terminates within fuel `n + 1`: the trace is exactly `n` writes
followed by the teardown actions in order (release the render buffer,
request the device stop, close the device), with no write after them,
and the final engine's stream handle is cleared. -/
theorem C6_stop_teardown (env : RenderEnv) (eng : Engine) (n : Nat)
    (buf : List Int)
    (h1 : env.requestStopAt n = true)
    (h2 : ∀ m < n, env.requestStopAt m = false)
    (h3 : ∀ m, 1 ≤ env.writeResp m) :
    (renderSteps env eng (n + 1) 0 0 0 buf).map traceView =
      some (.done,
        List.replicate n .write ++ [.freeBuf, .devStop, .devClose],
        { eng with requestStop := false, playStream := false }) := by
  exact renderSteps_stop_general env eng n 0 (n + 1) 0 0 buf
    (by simpa using h1)
    (fun m hm => by simpa using h2 m hm)
    h3 (Nat.lt_succ_self n)

/-- C6 witness: in `envStop` the stop flag is first visible at
iteration 1, so the run makes one write, tears down in order, and the
final engine's stream handle is null. -/
theorem C6_witness :
    (renderSteps envStop engPre 2 0 0 0 [0]).map traceView =
      some (.done, [.write, .freeBuf, .devStop, .devClose], engPost) := by
  have h := C6_stop_teardown envStop engPre 1 [0] rfl
    (fun m hm => by
      have hm0 : m = 0 := by omega
      subst hm0
      rfl)
    (fun m => by
      show (1 : Int) ≤ 2
      decide)
  simpa using h

/-- C9 counterexample: a run that observes the stop request at once
finishes its teardown with an engine that is not the zeroed
`EngineState` — `sampleRate`, `sampleChannels`, `bitsPerSample`,
`sampleFormat` and `playAudio` keep their values — refuting the claim
that all fields are cleared. -/
theorem C9_counterexample :
    renderSteps envStopNow engPre 1 0 0 0 [] =
      some (.done, [.freeBuf, .devStop, .devClose], engPost) ∧
    engPost ≠ engineZero := by
  constructor
  · rfl
  · decide

/-- C9 (amended): when the render loop observes `requestStop` it
finishes the teardown sequence with the stream handle released
(`playStream` cleared) and the `requestStop` flag reset, while every
other `EngineState` field (`sampleRate`, `sampleChannels`,
`bitsPerSample`, `sampleFormat`, `playAudio`) is left unchanged rather
than zeroed. -/
theorem C9_teardown_fields (env : RenderEnv) (eng : Engine)
    (fuel n0 posR posL : Nat) (buf : List Int)
    (h : env.requestStopAt n0 = true) :
    renderSteps env eng (fuel + 1) n0 posR posL buf =
      some (.done, [.freeBuf, .devStop, .devClose],
        { eng with requestStop := false, playStream := false }) := by
  simp [renderSteps, h]

/-- C9 witness: an immediate stop request tears down with only the
handle and stop flag cleared. -/
theorem C9_witness :
    renderSteps envStopNow engPre 1 0 0 0 [] =
      some (.done, [.freeBuf, .devStop, .devClose], engPost) :=
  C9_teardown_fields envStopNow engPre 0 0 0 0 [] rfl

end AAudio
